import Mathlib

/-!
# Shallow embedding of the Video Banner Bot orchestrator (src/main.py, src/config.py)

This file embeds the per-user session state machine, the dual-transport
downloader with fallback, the job coordinator (`handle_video`), the banner
handler (`handle_banner`), the entry command (`start_command`), the progress
sinks, and the statistics aggregator (`SystemStats`) of the bot, and proves
properties about them.

Modelling conventions:
* A user's session is the triple of the three per-user global dictionaries of
  `VideoLogoBotPro`, restricted to one user: `user_states.get(user_id)` is an
  `Option BotState` (the dictionary may have no entry), `user_banners.get(user_id)`
  an `Option Path`, and `user_id in self.processing_users` a `Bool`.
* Filesystem effects are abstracted: a destination file after a transfer is an
  `Option Nat` (`none` = `os.path.exists` is false, `some n` = the file exists
  with `os.path.getsize` equal to `n`).
* Times (`time.time()` differences) are rationals; `float('inf')` used as the
  initial `fastest_processing_time` is modelled by `⊤ : WithTop ℚ`.
* Exceptions raised by awaited calls are modelled by boolean/option fields of an
  environment record describing one execution of the handler; `asyncio.sleep`
  inside the `FloodWait` handler is recorded in the result rather than performed.
-/

namespace VideoEdit

/-- Filesystem paths, abstract. -/
abbrev Path := String

/-- `BotState` enumeration from `src/main.py` (class `BotState`). -/
inductive BotState where
  | IDLE
  | WAITING_BANNER
  | WAITING_VIDEO
  | PROCESSING
deriving DecidableEq, Repr

/-- One user's slice of the three per-user dictionaries of `VideoLogoBotPro`:
`user_states.get(user_id)`, `user_banners.get(user_id)`, and membership in
`processing_users`. -/
structure Session where
  state : Option BotState
  banner : Option Path
  busy : Bool
deriving DecidableEq, Repr

/-- `SystemStats` from `src/main.py` (fields mutated by the handlers;
`start_time` is omitted since uptime plays no role in the claims).
`fastest_processing_time` starts at `float('inf')`, modelled as `⊤`. -/
structure SystemStats where
  processed_videos : Nat
  total_processing_time : ℚ
  errors_count : Nat
  largest_file_size : Nat
  fastest_processing_time : WithTop ℚ
deriving DecidableEq

/-- The `SystemStats.__init__` values. -/
def SystemStats.init : SystemStats :=
  { processed_videos := 0
    total_processing_time := 0
    errors_count := 0
    largest_file_size := 0
    fastest_processing_time := ⊤ }

/-- `SystemStats.update_processing_stats(processing_time, file_size)`. -/
def update_processing_stats (st : SystemStats) (processing_time : ℚ) (file_size : Nat) :
    SystemStats :=
  { st with
    processed_videos := st.processed_videos + 1
    total_processing_time := st.total_processing_time + processing_time
    largest_file_size := max st.largest_file_size file_size
    fastest_processing_time :=
      min st.fastest_processing_time (processing_time : WithTop ℚ) }

/-- `SystemStats.get_average_processing_time()`. -/
def get_average_processing_time (st : SystemStats) : ℚ :=
  if st.processed_videos = 0 then 0
  else st.total_processing_time / (st.processed_videos : ℚ)

/-! ## Transport fallback downloader -/

/-- One execution of `_download_with_user_client` (the primary, user-client
transport): which of the awaited steps succeed, whether a `FloodWait` is raised
during the attempt (and its mandated wait), whether some other exception is
raised, and the destination file observed at the end (`none` = missing). -/
structure PrimaryEnv where
  floodWait : Option Nat
  raisesOther : Bool
  getMessageOk : Bool
  downloadedFile : Bool
  dest : Option Nat
deriving DecidableEq, Repr

/-- Result of a primary-transport attempt: the returned boolean, plus the
duration slept inside the `FloodWait` handler (`none` when no `FloodWait`). -/
structure PrimaryResult where
  ok : Bool
  slept : Option Nat
deriving DecidableEq, Repr

/-- `_download_with_user_client(message, output_path, progress_callback)`:
returns `False` when no user client is configured; on `FloodWait e` sleeps
`e.value` seconds and returns `False`; on any other exception returns `False`;
when `get_messages` yields nothing returns `False`; otherwise returns
`downloaded_file and os.path.exists(output_path) and os.path.getsize(output_path) > 0`. -/
def download_with_user_client (hasClient : Bool) (env : PrimaryEnv) : PrimaryResult :=
  if !hasClient then ⟨false, none⟩
  else
    match env.floodWait with
    | some w => ⟨false, some w⟩
    | none =>
      if env.raisesOther then ⟨false, none⟩
      else if !env.getMessageOk then ⟨false, none⟩
      else ⟨env.downloadedFile && env.dest.isSome && decide (0 < env.dest.getD 0), none⟩

/-- A Telegram file handle (only identity matters here). -/
structure FileRef where
  file_id : Nat
deriving DecidableEq, Repr

/-- The payload slots of an inbound message inspected by
`_download_with_bot_api`: `message.video`, `message.document`, `message.photo`
(a list of photo sizes; the code takes `photo[-1]`). -/
structure TgMessage where
  video : Option FileRef
  document : Option FileRef
  photo : List FileRef
deriving DecidableEq, Repr

/-- The `file_id` resolution of `_download_with_bot_api`: prefer
`message.video`, then `message.document`, then the last photo variant. -/
def resolve_file_id (m : TgMessage) : Option FileRef :=
  match m.video with
  | some v => some v
  | none =>
    match m.document with
    | some d => some d
    | none => m.photo.getLast?

/-- One execution of `_download_with_bot_api` past the `file_id` resolution:
whether `get_file`/`download_to_drive` raises, and the destination file
observed afterwards (`none` = missing). -/
structure BotApiEnv where
  raises : Bool
  dest : Option Nat
deriving DecidableEq, Repr

/-- `_download_with_bot_api(bot, message, output_path, progress_callback)`:
`False` when no `file_id` can be resolved or an exception is raised, otherwise
`os.path.exists(output_path) and os.path.getsize(output_path) > 0`. -/
def download_with_bot_api (m : TgMessage) (env : BotApiEnv) : Bool :=
  match resolve_file_id m with
  | none => false
  | some _ =>
    if env.raises then false
    else env.dest.isSome && decide (0 < env.dest.getD 0)

/-- Result of `smart_download`: the returned boolean, how many times each
transport was attempted, and the duration slept on a primary `FloodWait`. -/
structure SmartResult where
  ok : Bool
  primaryCalls : Nat
  secondaryCalls : Nat
  slept : Option Nat
deriving DecidableEq, Repr

/-- `smart_download(bot, message, output_path, progress_callback)`: the guard
`if self.user_client and await self._download_with_user_client(...)` tries the
primary transport once when a user client is configured and returns `True` on
its success; otherwise a single fall-through attempt is made with the Bot API. -/
def smart_download (hasClient : Bool) (p : PrimaryEnv) (m : TgMessage) (b : BotApiEnv) :
    SmartResult :=
  if hasClient then
    let pr := download_with_user_client true p
    if pr.ok then ⟨true, 1, 0, pr.slept⟩
    else ⟨download_with_bot_api m b, 1, 1, pr.slept⟩
  else ⟨download_with_bot_api m b, 0, 1, none⟩

/-! ## Progress sinks -/

/-- Python `int()` applied to a rational: truncation toward zero. The progress
values fed to the sinks are `current/total*100` with `0 ≤ current ≤ total`, so
this agrees with `Rat.floor` on every value that actually occurs. -/
def pyInt (q : ℚ) : ℤ :=
  if q < 0 then q.ceil else q.floor

/-- The `smart_progress` sink defined inside `handle_video`: every invocation
edits the progress message (the `try`/`except: pass` only swallows edit
failures), rendering `int(progress)`. `some z` means a UI edit carrying percent
`z` is issued. -/
def smart_progress (progress : ℚ) : Option ℤ :=
  some (pyInt progress)

/-- The `progress_callback` sink defined inside `handle_banner`: edits the
progress message only when `int(progress) % 25 == 0`. -/
def banner_progress_callback (progress : ℚ) : Option ℤ :=
  if pyInt progress % 25 = 0 then some (pyInt progress) else none

/-! ## Entry command (`start_command`) -/

/-- Result of `start_command`: the user's session afterwards, plus the paths
passed to `cleanup_temp_files` on the way. -/
structure StartResult where
  session : Session
  released : List Path
deriving DecidableEq, Repr

/-- `start_command(update, context)`: sets `user_states[user_id] = IDLE`,
releases and deletes any stored banner, sends the welcome message, and finally
sets `user_states[user_id] = WAITING_BANNER`. -/
def start_command (s : Session) : StartResult :=
  let s1 : Session := { s with state := some BotState.IDLE }
  match s1.banner with
  | some p =>
    ⟨{ s1 with banner := none, state := some BotState.WAITING_BANNER }, [p]⟩
  | none => ⟨{ s1 with state := some BotState.WAITING_BANNER }, []⟩

/-! ## Banner handler (`handle_banner`) -/

/-- Classification of one `handle_banner` execution. -/
inductive BannerOutcome where
  | rejectedWrongState
  | downloadFailed
  | stored
deriving DecidableEq, Repr

/-- One execution of `handle_banner` past the state guard: the temp path
handed out by `NamedTemporaryFile`, and whether `smart_download` returned
`True` for it. -/
structure BannerEnv where
  bannerTemp : Path
  downloadOk : Bool
deriving DecidableEq, Repr

/-- Result of `handle_banner`: the session afterwards, the outcome, and the
paths passed to `cleanup_temp_files`. -/
structure BannerResult where
  session : Session
  outcome : BannerOutcome
  released : List Path
deriving DecidableEq, Repr

/-- `handle_banner(update, context)`: rejected unless
`user_states.get(user_id) == WAITING_BANNER`; on download failure the banner
temp file is cleaned up and the handler returns with the session untouched; on
success `user_banners[user_id]` is set to the temp path and the state advances
to `WAITING_VIDEO`. -/
def handle_banner (s : Session) (env : BannerEnv) : BannerResult :=
  if s.state ≠ some BotState.WAITING_BANNER then ⟨s, .rejectedWrongState, []⟩
  else if !env.downloadOk then ⟨s, .downloadFailed, [env.bannerTemp]⟩
  else
    ⟨{ s with banner := some env.bannerTemp, state := some BotState.WAITING_VIDEO },
     .stored, []⟩

/-! ## Job coordinator (`handle_video`) -/

/-- Shape of the delivered result: `reply_document` vs `reply_video`. -/
inductive DeliveryShape where
  | document
  | video
deriving DecidableEq, Repr

/-- Outcome of the `asyncio.wait_for(... run_ffmpeg ..., timeout=300)` call:
either the 300-second outer deadline fires (`asyncio.TimeoutError`), or
`run_ffmpeg_ultra_fast` completes with a success flag and stderr text. -/
inductive FfmpegOutcome where
  | timeout
  | completed (success : Bool) (stderr : String)
deriving DecidableEq, Repr

/-- Classification of one `handle_video` execution. -/
inductive VideoOutcome where
  | rejectedWrongState
  | rejectedNoBanner
  | rejectedBusy
  | noVideoFile
  | sizeExceeded
  | downloadFailed
  | transcodeTimeout
  | transcodeFailed
  | unexpectedError
  | delivered (shape : DeliveryShape)
deriving DecidableEq, Repr

/-- One execution of `handle_video` past the guards: the video/document
payload of the message (with its `file_size`), the configured
`MAX_FILE_SIZE`, whether an awaited call between the size check and the
download raises an unexpected exception, the `smart_download` result, the
ffmpeg outcome, the output file observed afterwards (`none` = missing), and
the elapsed time used for the statistics update. -/
structure JobEnv where
  video : Option Nat
  maxFileSize : Nat
  raisesUnexpected : Bool
  downloadOk : Bool
  ffmpeg : FfmpegOutcome
  outputSize : Option Nat
  totalTime : ℚ
deriving DecidableEq

/-- Result of `handle_video`: the session and statistics afterwards, the
outcome, whether the job was accepted (busy flag set and state moved to
`PROCESSING`), and whether `smart_download` was invoked. -/
structure VideoResult where
  session : Session
  stats : SystemStats
  outcome : VideoOutcome
  accepted : Bool
  downloadStarted : Bool
deriving DecidableEq

/-- The delivery choice on transcode success:
`if output_size > 50 * 1024 * 1024: reply_document else: reply_video`. -/
def delivery_shape (output_size : Nat) : DeliveryShape :=
  if output_size > 50 * 1024 * 1024 then .document else .video

/-- The `try` body of `handle_video` after acceptance, returning the session,
statistics, outcome, and whether the download was started. Mirrors, in order:
the `video`/`document` payload check, the `MAX_FILE_SIZE` check, the awaited
calls that may raise before the download (progress message, temp files), the
`smart_download` call, the `asyncio.wait_for` around ffmpeg, and the
`success and os.path.exists(output_path) and os.path.getsize(output_path) > 0`
branch with its statistics update, delivery, and reset of the state to `IDLE`;
the `else` branch and the `except` branch increment `errors_count`. -/
def handle_video_body (s1 : Session) (env : JobEnv) (st : SystemStats) :
    Session × SystemStats × VideoOutcome × Bool :=
  match env.video with
  | none => (s1, st, .noVideoFile, false)
  | some file_size =>
    if file_size > env.maxFileSize then (s1, st, .sizeExceeded, false)
    else if env.raisesUnexpected then
      (s1, { st with errors_count := st.errors_count + 1 }, .unexpectedError, false)
    else if !env.downloadOk then (s1, st, .downloadFailed, true)
    else
      match env.ffmpeg with
      | .timeout => (s1, st, .transcodeTimeout, true)
      | .completed ok _ =>
        if ok && env.outputSize.isSome && decide (0 < env.outputSize.getD 0) then
          ({ s1 with state := some BotState.IDLE },
           update_processing_stats st env.totalTime file_size,
           .delivered (delivery_shape (env.outputSize.getD 0)), true)
        else
          (s1, { st with errors_count := st.errors_count + 1 }, .transcodeFailed, true)

/-- `handle_video(update, context)`: the three guards (state, banner, busy)
reject without touching the session; on acceptance `processing_users[user_id]`
is set, the state moves to `PROCESSING`, the `try` body runs, and the
`finally` block releases the temp files and the stored banner and removes the
user from `processing_users` on every path. -/
def handle_video (s : Session) (env : JobEnv) (st : SystemStats) : VideoResult :=
  if s.state ≠ some BotState.WAITING_VIDEO then ⟨s, st, .rejectedWrongState, false, false⟩
  else if s.banner = none then ⟨s, st, .rejectedNoBanner, false, false⟩
  else if s.busy then ⟨s, st, .rejectedBusy, false, false⟩
  else
    let s1 : Session := { s with busy := true, state := some BotState.PROCESSING }
    let r := handle_video_body s1 env st
    ⟨{ r.1 with banner := none, busy := false }, r.2.1, r.2.2.1, true, r.2.2.2⟩

/-! ## Concrete instances used in counterexamples and witnesses -/

/-- A session ready for a video: state `WAITING_VIDEO`, a banner stored, not busy. -/
def readySession : Session :=
  ⟨some BotState.WAITING_VIDEO, some "temp/banner.jpg", false⟩

/-- A session that has only just been created: no state entry at all. -/
def freshSession : Session := ⟨none, none, false⟩

/-- A job execution in which `smart_download` fails for a 1 MB video under the
default 2 GB `MAX_FILE_SIZE`. -/
def downloadFailJob : JobEnv :=
  { video := some 1048576
    maxFileSize := 2147483648
    raisesUnexpected := false
    downloadOk := false
    ffmpeg := .completed true ""
    outputSize := none
    totalTime := 5 }

/-- A job execution for a video whose `file_size` exceeds the default 2 GB
`MAX_FILE_SIZE`; everything downstream would succeed. -/
def oversizeJob : JobEnv :=
  { video := some 3000000000
    maxFileSize := 2147483648
    raisesUnexpected := false
    downloadOk := true
    ffmpeg := .completed true ""
    outputSize := some 1048576
    totalTime := 5 }

/-- A fully successful job execution for a 1 MB video. -/
def successJob : JobEnv :=
  { video := some 1048576
    maxFileSize := 2147483648
    raisesUnexpected := false
    downloadOk := true
    ffmpeg := .completed true ""
    outputSize := some 1048576
    totalTime := 5 }

/-- A successful job whose output file is 80 MB (above the 50 MB document
threshold). -/
def bigOutputJob : JobEnv :=
  { successJob with outputSize := some (80 * 1024 * 1024) }

/-- A successful job whose output file is 48 MB (below the 50 MB document
threshold). -/
def smallOutputJob : JobEnv :=
  { successJob with outputSize := some (48 * 1024 * 1024) }

/-- The number of `errors_count` increments `handle_video` performs for a
given outcome. -/
def errorIncrement : VideoOutcome → Nat
  | .transcodeFailed => 1
  | .unexpectedError => 1
  | _ => 0

/-- A primary-transport attempt in which every step succeeds and the
destination holds 4096 bytes. -/
def goodPrimary : PrimaryEnv := ⟨none, false, true, true, some 4096⟩

/-- A primary-transport attempt interrupted by `FloodWait(30)`. -/
def floodPrimary : PrimaryEnv := ⟨some 30, false, true, true, some 4096⟩

/-- An inbound message carrying a video payload. -/
def videoMessage : TgMessage := ⟨some ⟨1⟩, none, []⟩

/-- A Bot API attempt that succeeds with a 4096-byte destination. -/
def goodBotApi : BotApiEnv := ⟨false, some 4096⟩

/-! ## C5: both transports require an existing, non-empty destination -/

/-- C5: for every fetch via either transport, success is reported only if the
destination file exists with size strictly greater than zero after the
transfer; a zero-byte or missing destination is reported as failure by both
transport paths. -/
theorem download_success_requires_nonempty_dest (hasClient : Bool) (p : PrimaryEnv)
    (m : TgMessage) (b : BotApiEnv) :
    ((download_with_user_client hasClient p).ok = true → ∃ n, p.dest = some n ∧ 0 < n) ∧
    (download_with_bot_api m b = true → ∃ n, b.dest = some n ∧ 0 < n) := by
  constructor
  · intro h
    rcases p with ⟨fw, ro, gm, df, dest⟩
    cases hasClient <;> cases fw <;> cases ro <;> cases gm <;> cases df <;> cases dest <;>
      simp_all [download_with_user_client]
  · intro h
    rcases b with ⟨ra, dest⟩
    cases hr : resolve_file_id m <;> cases ra <;> cases dest <;>
      simp_all [download_with_bot_api]

/-- Witness for C5: the theorem applied to a concrete successful attempt on
each transport. -/
theorem download_success_requires_nonempty_dest_witness :
    (∃ n, goodPrimary.dest = some n ∧ 0 < n) ∧
    (∃ n, goodBotApi.dest = some n ∧ 0 < n) :=
  ⟨(download_success_requires_nonempty_dest true goodPrimary videoMessage goodBotApi).1
      (by decide),
   (download_success_requires_nonempty_dest true goodPrimary videoMessage goodBotApi).2
      (by decide)⟩

/-! ## C6: rate-limit on the primary falls through once to the secondary -/

/-- C6: when the primary transport raises a rate-limit signal during a fetch,
the downloader sleeps for the signaled duration, the primary attempt is
reported failed and is not retried within the call, and the fetch proceeds to
the single secondary-transport attempt. -/
theorem floodwait_falls_through_once (p : PrimaryEnv) (m : TgMessage) (b : BotApiEnv)
    (w : Nat) (hw : p.floodWait = some w) :
    (smart_download true p m b).slept = some w ∧
    (download_with_user_client true p).ok = false ∧
    (smart_download true p m b).primaryCalls = 1 ∧
    (smart_download true p m b).secondaryCalls = 1 ∧
    (smart_download true p m b).ok = download_with_bot_api m b := by
  simp [smart_download, download_with_user_client, hw]

/-- Witness for C6: the theorem applied to a `FloodWait(30)` primary attempt. -/
theorem floodwait_falls_through_once_witness :
    (smart_download true floodPrimary videoMessage goodBotApi).slept = some 30 ∧
    (download_with_user_client true floodPrimary).ok = false ∧
    (smart_download true floodPrimary videoMessage goodBotApi).primaryCalls = 1 ∧
    (smart_download true floodPrimary videoMessage goodBotApi).secondaryCalls = 1 ∧
    (smart_download true floodPrimary videoMessage goodBotApi).ok
      = download_with_bot_api videoMessage goodBotApi :=
  floodwait_falls_through_once floodPrimary videoMessage goodBotApi 30 rfl

/-! ## C7: the statistics aggregator -/

/-- C7: `update_processing_stats` increments the completed-job count by one,
adds the elapsed time to the cumulative total, sets max-size-seen to the
maximum of its previous value and the new size, and sets min-elapsed-seen to
the minimum of its previous value and the new elapsed time; the reported
average is cumulative time over count, with 0 when the count is 0. -/
theorem stats_record_and_average_spec (st : SystemStats) (t : ℚ) (size : Nat) :
    (update_processing_stats st t size).processed_videos = st.processed_videos + 1 ∧
    (update_processing_stats st t size).total_processing_time
      = st.total_processing_time + t ∧
    (update_processing_stats st t size).largest_file_size
      = max st.largest_file_size size ∧
    (update_processing_stats st t size).fastest_processing_time
      = min st.fastest_processing_time (t : WithTop ℚ) ∧
    get_average_processing_time st =
      (if st.processed_videos = 0 then 0
       else st.total_processing_time / (st.processed_videos : ℚ)) :=
  ⟨rfl, rfl, rfl, rfl, rfl⟩

/-! ## C9: the entry command is idempotent -/

/-- C9: issuing the entry command twice in succession, from any prior session,
leaves the state at `WAITING_BANNER` with no banner path stored; any banner
held before the first command is the one released by it. -/
theorem start_command_idempotent (s : Session) :
    (start_command (start_command s).session).session = (start_command s).session ∧
    (start_command (start_command s).session).session.state
      = some BotState.WAITING_BANNER ∧
    (start_command (start_command s).session).session.banner = none ∧
    (start_command s).released = s.banner.toList := by
  cases h : s.banner <;> simp [start_command, h]

/-! ## C10: banner acquisition is error-atomic -/

/-- C10: from a `WAITING_BANNER` session with no stored banner, a failed
banner download leaves the session unchanged (state still `WAITING_BANNER`,
no banner stored) and releases the banner temp file; the state advances to
`WAITING_VIDEO` with the banner path stored exactly when the download
succeeds. -/
theorem banner_failure_error_atomic (s : Session) (env : BannerEnv)
    (hs : s.state = some BotState.WAITING_BANNER) (hb : s.banner = none) :
    (env.downloadOk = false →
      (handle_banner s env).session = s ∧
      (handle_banner s env).session.state = some BotState.WAITING_BANNER ∧
      (handle_banner s env).session.banner = none ∧
      (handle_banner s env).released = [env.bannerTemp]) ∧
    ((handle_banner s env).session.state = some BotState.WAITING_VIDEO ∧
        (handle_banner s env).session.banner = some env.bannerTemp ↔
      env.downloadOk = true) := by
  cases hdl : env.downloadOk <;>
    simp [handle_banner, hs, hb, hdl]

/-! ## Helper lemmas about `handle_video` -/

/-- When the three guards pass, `handle_video` runs the accepted branch. -/
theorem handle_video_accepted (s : Session) (env : JobEnv) (st : SystemStats)
    (hs : s.state = some BotState.WAITING_VIDEO) (hb : s.banner ≠ none)
    (hbusy : s.busy = false) :
    handle_video s env st =
      (let s1 : Session := { s with busy := true, state := some BotState.PROCESSING }
       let r := handle_video_body s1 env st
       ⟨{ r.1 with banner := none, busy := false }, r.2.1, r.2.2.1, true, r.2.2.2⟩) := by
  unfold handle_video
  rw [if_neg (by simp [hs]), if_neg hb, if_neg (by simp [hbusy])]

/-- The `try` body leaves the state at `IDLE` exactly on delivery; on every
other outcome it keeps the state it was given. -/
theorem handle_video_body_state_outcome (s1 : Session) (env : JobEnv) (st : SystemStats)
    (h : s1.state = some BotState.PROCESSING) :
    ((handle_video_body s1 env st).1.state = some BotState.IDLE ↔
        ∃ sh, (handle_video_body s1 env st).2.2.1 = VideoOutcome.delivered sh) ∧
    ((handle_video_body s1 env st).1.state = some BotState.IDLE ∨
        (handle_video_body s1 env st).1.state = some BotState.PROCESSING) := by
  unfold handle_video_body
  rcases env with ⟨video, maxFS, rexp, dlok, ff, out, t⟩
  cases video with
  | none => simp [h]
  | some fs =>
    dsimp only
    split_ifs with h1 h2 h3
    · simp [h]
    · simp [h]
    · simp [h]
    · cases ff with
      | timeout => simp [h]
      | completed ok err =>
        dsimp only
        split_ifs with h4
        · simp
        · simp [h]

/-- The `try` body starts the download exactly when a payload is present,
within the size cap, and no unexpected exception preempts it. -/
theorem handle_video_body_download_started (s1 : Session) (env : JobEnv) (st : SystemStats) :
    (handle_video_body s1 env st).2.2.2 = true ↔
      env.raisesUnexpected = false ∧
        ∃ fs, env.video = some fs ∧ fs ≤ env.maxFileSize := by
  unfold handle_video_body
  rcases env with ⟨video, maxFS, rexp, dlok, ff, out, t⟩
  cases video with
  | none => simp
  | some fs =>
    dsimp only
    by_cases h1 : fs > maxFS
    · rw [if_pos h1]
      simp only [Bool.false_eq_true, false_iff, not_and, Option.some.injEq]
      intro _ h
      obtain ⟨fs', rfl, hle⟩ := h
      omega
    · rw [if_neg h1]
      cases rexp with
      | true => simp
      | false =>
        have hle : fs ≤ maxFS := by omega
        cases dlok with
        | false => simp [hle]
        | true =>
          cases ff with
          | timeout => simp [hle]
          | completed ok err =>
            dsimp only
            split_ifs with h4 <;> simp_all

/-- The `try` body's statistics: `errors_count` is incremented exactly on a
transcode failure or an unexpected exception. -/
theorem handle_video_body_errors (s1 : Session) (env : JobEnv) (st : SystemStats) :
    (handle_video_body s1 env st).2.1.errors_count =
      st.errors_count + errorIncrement (handle_video_body s1 env st).2.2.1 := by
  unfold handle_video_body
  rcases env with ⟨video, maxFS, rexp, dlok, ff, out, t⟩
  cases video with
  | none => rfl
  | some fs =>
    dsimp only
    split_ifs with h1 h2 h3
    · rfl
    · rfl
    · rfl
    · cases ff with
      | timeout => rfl
      | completed ok err =>
        dsimp only
        split_ifs with h4
        · rfl
        · rfl

/-- On a successful run (payload within the cap, download ok, ffmpeg success,
non-empty output), the `try` body delivers by output size, updates the
statistics, and resets the state to `IDLE`. -/
theorem handle_video_body_success (s1 : Session) (env : JobEnv) (st : SystemStats)
    (fs n : Nat) (stderr : String)
    (hv : env.video = some fs) (hsz : fs ≤ env.maxFileSize)
    (hex : env.raisesUnexpected = false) (hdl : env.downloadOk = true)
    (hff : env.ffmpeg = FfmpegOutcome.completed true stderr)
    (hout : env.outputSize = some n) (hn : 0 < n) :
    handle_video_body s1 env st =
      ({ s1 with state := some BotState.IDLE },
       update_processing_stats st env.totalTime fs,
       VideoOutcome.delivered (delivery_shape n), true) := by
  unfold handle_video_body
  rw [hv]
  dsimp only
  rw [if_neg (by omega), if_neg (by simp [hex]), if_neg (by simp [hdl]), hff]
  dsimp only
  rw [if_pos (by simp [hout, hn])]
  simp [hout]

/-! ## C1: session after an accepted job (corrected) -/

/-- C1 counterexample: an accepted job whose download fails completes with
the busy flag cleared and the banner released, but the session state is left
at `PROCESSING`, not `IDLE`. -/
theorem session_left_processing_after_download_failure :
    (handle_video readySession downloadFailJob SystemStats.init).outcome
        = VideoOutcome.downloadFailed ∧
    (handle_video readySession downloadFailJob SystemStats.init).session.state
        = some BotState.PROCESSING ∧
    (handle_video readySession downloadFailJob SystemStats.init).session.state
        ≠ some BotState.IDLE := by
  decide

/-- C1 amended: for every accepted video job, whatever the outcome, when the
job's handling completes the busy flag is cleared and the stored banner path
is released and removed from the session; the session state, however, is reset
to `IDLE` only on successful delivery — on every failure outcome it remains
`PROCESSING`. -/
theorem accepted_job_cleanup_and_state (s : Session) (env : JobEnv) (st : SystemStats)
    (hs : s.state = some BotState.WAITING_VIDEO) (hb : s.banner ≠ none)
    (hbusy : s.busy = false) :
    (handle_video s env st).session.busy = false ∧
    (handle_video s env st).session.banner = none ∧
    ((handle_video s env st).session.state = some BotState.IDLE ↔
        ∃ sh, (handle_video s env st).outcome = VideoOutcome.delivered sh) ∧
    ((handle_video s env st).session.state = some BotState.IDLE ∨
        (handle_video s env st).session.state = some BotState.PROCESSING) := by
  rw [handle_video_accepted s env st hs hb hbusy]
  refine ⟨rfl, rfl, ?_, ?_⟩
  · exact (handle_video_body_state_outcome _ env st rfl).1
  · exact (handle_video_body_state_outcome _ env st rfl).2

/-- Witness for C1 (amended): the theorem applied to a ready session and a
fully successful job. -/
theorem accepted_job_cleanup_and_state_witness :
    (handle_video readySession successJob SystemStats.init).session.busy = false ∧
    (handle_video readySession successJob SystemStats.init).session.banner = none :=
  ⟨(accepted_job_cleanup_and_state readySession successJob SystemStats.init rfl
      (by decide) rfl).1,
   (accepted_job_cleanup_and_state readySession successJob SystemStats.init rfl
      (by decide) rfl).2.1⟩

/-! ## C2: the error counter (corrected) -/

/-- C2 counterexample: a download failure during an accepted job leaves the
statistics error counter unchanged, while the claim requires an increment. -/
theorem errors_counter_unchanged_on_download_failure :
    (handle_video readySession downloadFailJob SystemStats.init).outcome
        = VideoOutcome.downloadFailed ∧
    (handle_video readySession downloadFailJob SystemStats.init).stats.errors_count
        = SystemStats.init.errors_count := by
  decide

/-- C2 amended: for every session, job environment and starting statistics,
`handle_video` increments the error counter by exactly one on a transcode
failure or an unexpected error, and leaves it unchanged on every other
outcome — including download failures, transcode timeouts, and the
wrong-state/no-banner/already-busy rejections. -/
theorem errors_counter_rule (s : Session) (env : JobEnv) (st : SystemStats) :
    (handle_video s env st).stats.errors_count =
      st.errors_count + errorIncrement (handle_video s env st).outcome := by
  unfold handle_video
  split_ifs with g1 g2 g3
  · rfl
  · rfl
  · rfl
  · exact handle_video_body_errors _ env st

/-! ## C3: progress-sink throttling (corrected) -/

/-- C3 counterexample: the sink passed to the downloader for the video
download issues a UI update at 37 percent, which is not divisible by the
25-percent step; the banner sink suppresses the same value. -/
theorem video_progress_sink_not_throttled :
    smart_progress 37 = some 37 ∧
    pyInt 37 % 25 ≠ 0 ∧
    banner_progress_callback 37 = none := by
  decide

/-- C3 amended: the video-download sink (`smart_progress`) issues a UI update
on every progress callback; it is the banner-download sink
(`progress_callback` in `handle_banner`) that throttles updates to percent
values divisible by 25. -/
theorem progress_sink_throttling (q : ℚ) :
    (smart_progress q).isSome = true ∧
    ((banner_progress_callback q).isSome = true ↔ pyInt q % 25 = 0) := by
  refine ⟨rfl, ?_⟩
  unfold banner_progress_callback
  split <;> simp_all

/-! ## C4: the acceptance condition (corrected) -/

/-- C4 counterexample: with the session in `WAITING_VIDEO`, a banner stored
and the user not busy, an over-size video is accepted (busy set, state moved
to `PROCESSING`) yet its download is never begun — the claim's
acceptance-means-download-begun reading fails. -/
theorem acceptance_without_download_start :
    readySession.state = some BotState.WAITING_VIDEO ∧
    readySession.banner ≠ none ∧
    readySession.busy = false ∧
    (handle_video readySession oversizeJob SystemStats.init).accepted = true ∧
    (handle_video readySession oversizeJob SystemStats.init).downloadStarted = false := by
  decide

/-- C4 amended: a video-shaped input starts a job (busy set, state moved to
`PROCESSING`) if and only if the session state is `WAITING_VIDEO`, a banner
path is stored, and the user is not already busy; in every other case the
session and statistics are untouched. The download itself is begun only when,
additionally, the message carries a video/document payload whose size is
within the configured maximum (and no earlier awaited call raises). -/
theorem video_acceptance_characterization (s : Session) (env : JobEnv) (st : SystemStats) :
    ((handle_video s env st).accepted = true ↔
        s.state = some BotState.WAITING_VIDEO ∧ s.banner ≠ none ∧ s.busy = false) ∧
    ((handle_video s env st).downloadStarted = true ↔
        (s.state = some BotState.WAITING_VIDEO ∧ s.banner ≠ none ∧ s.busy = false ∧
          env.raisesUnexpected = false ∧
          ∃ fs, env.video = some fs ∧ fs ≤ env.maxFileSize)) ∧
    ((handle_video s env st).accepted = false →
        (handle_video s env st).session = s ∧ (handle_video s env st).stats = st) := by
  by_cases g1 : s.state = some BotState.WAITING_VIDEO
  · by_cases g2 : s.banner = none
    · unfold handle_video
      rw [if_neg (by simp [g1]), if_pos g2]
      simp [g2]
    · by_cases g3 : s.busy = true
      · unfold handle_video
        rw [if_neg (by simp [g1]), if_neg g2, if_pos g3]
        simp [g3]
      · have g3' : s.busy = false := by simpa using g3
        rw [handle_video_accepted s env st g1 g2 g3']
        refine ⟨by simp [g1, g2, g3'], ?_, by simp⟩
        rw [handle_video_body_download_started]
        simp [g1, g2, g3']
  · unfold handle_video
    rw [if_pos (by simp [g1])]
    simp [g1]

/-- Witness for C4 (amended): the theorem applied to a ready session (job
started) and to a fresh session (rejection leaves the session untouched). -/
theorem video_acceptance_characterization_witness :
    (handle_video readySession successJob SystemStats.init).accepted = true ∧
    (handle_video freshSession successJob SystemStats.init).session = freshSession :=
  ⟨(video_acceptance_characterization readySession successJob SystemStats.init).1.mpr
      ⟨rfl, by decide, rfl⟩,
   ((video_acceptance_characterization freshSession successJob SystemStats.init).2.2
      (by decide)).1⟩

/-! ## C8: delivery shape chosen by output size -/

/-- C8: on transcode success (`src/main.py:556-567`), the delivery shape is
chosen by output file size: every output strictly larger than the 50 MB
document threshold is delivered with `reply_document` (a generic file
attachment), and every output at or below the threshold with `reply_video`
(a playable video attachment). The hypotheses describe an accepted job whose
download and transcode succeed with a non-empty output of size `n`. -/
theorem delivery_shape_by_output_size (s : Session) (env : JobEnv) (st : SystemStats)
    (fs n : Nat) (stderr : String)
    (hs : s.state = some BotState.WAITING_VIDEO) (hb : s.banner ≠ none)
    (hbusy : s.busy = false)
    (hv : env.video = some fs) (hsz : fs ≤ env.maxFileSize)
    (hex : env.raisesUnexpected = false) (hdl : env.downloadOk = true)
    (hff : env.ffmpeg = FfmpegOutcome.completed true stderr)
    (hout : env.outputSize = some n) (hn : 0 < n) :
    (50 * 1024 * 1024 < n →
      (handle_video s env st).outcome
        = VideoOutcome.delivered DeliveryShape.document) ∧
    (n ≤ 50 * 1024 * 1024 →
      (handle_video s env st).outcome
        = VideoOutcome.delivered DeliveryShape.video) := by
  rw [handle_video_accepted s env st hs hb hbusy]
  dsimp only
  rw [handle_video_body_success _ env st fs n stderr hv hsz hex hdl hff hout hn]
  constructor
  · intro hgt
    show VideoOutcome.delivered (delivery_shape n) = _
    rw [delivery_shape, if_pos hgt]
  · intro hle
    show VideoOutcome.delivered (delivery_shape n) = _
    rw [delivery_shape, if_neg (by omega)]

/-- Witness for C8: the theorem applied at both sides of the threshold — an
80 MB output is delivered as a document, a 48 MB output as a video. -/
theorem delivery_shape_by_output_size_witness :
    (handle_video readySession bigOutputJob SystemStats.init).outcome
        = VideoOutcome.delivered DeliveryShape.document ∧
    (handle_video readySession smallOutputJob SystemStats.init).outcome
        = VideoOutcome.delivered DeliveryShape.video :=
  ⟨(delivery_shape_by_output_size readySession bigOutputJob SystemStats.init
      1048576 (80 * 1024 * 1024) "" rfl (by decide) rfl rfl (by decide) rfl rfl rfl rfl
      (by decide)).1 (by norm_num),
   (delivery_shape_by_output_size readySession smallOutputJob SystemStats.init
      1048576 (48 * 1024 * 1024) "" rfl (by decide) rfl rfl (by decide) rfl rfl rfl rfl
      (by decide)).2 (by norm_num)⟩

/-- Witness for C10: the theorem applied to a fresh `WAITING_BANNER` session
with a failing download. -/
theorem banner_failure_error_atomic_witness :
    (handle_banner ⟨some BotState.WAITING_BANNER, none, false⟩ ⟨"temp/b.jpg", false⟩).session
        = ⟨some BotState.WAITING_BANNER, none, false⟩ ∧
    (handle_banner ⟨some BotState.WAITING_BANNER, none, false⟩ ⟨"temp/b.jpg", false⟩).released
        = ["temp/b.jpg"] :=
  ⟨((banner_failure_error_atomic ⟨some BotState.WAITING_BANNER, none, false⟩
        ⟨"temp/b.jpg", false⟩ rfl rfl).1 rfl).1,
   ((banner_failure_error_atomic ⟨some BotState.WAITING_BANNER, none, false⟩
        ⟨"temp/b.jpg", false⟩ rfl rfl).1 rfl).2.2.2⟩

end VideoEdit
